import Mathlib

/-!
Shallow embedding of the SecuredLinQ backend's Agora integration:

* `backend/pkg/agora/token.go` — the RTC access-token builder
  (binary wire format, HMAC-SHA256 signature, CRC32 integrity codes,
  base64 output);
* `backend/pkg/agora/client.go` — the cloud-recording client's
  stop-retry policy and folder-name sanitisation;
* the recording service (`RecordingService.StartRecording` /
  `StopRecording`) — in-memory lifecycle of active recordings.

Go machine integers are embedded as `Nat` with explicit `% 2^w`
reductions where the Go code relies on fixed-width wrap-around.
Go `string`s are byte strings; we embed them as Lean `String` and
convert to their UTF-8 bytes (`List Nat`, each element < 256)
wherever the Go code views them as `[]byte`.  Network calls and the
system clock are passed in as explicit parameters (oracles).
-/

/-! ## Byte-level encoding primitives (token.go: packUint16ToBuf etc.) -/

/-- `binary.LittleEndian.PutUint16`: two bytes, least significant first
(token.go `packUint16ToBuf`). -/
def packUint16 (v : Nat) : List Nat := [v % 256, v / 256 % 256]

/-- `binary.LittleEndian.PutUint32`: four bytes, least significant first
(token.go `packUint32ToBuf`). -/
def packUint32 (v : Nat) : List Nat :=
  [v % 256, v / 256 % 256, v / 256 ^ 2 % 256, v / 256 ^ 3 % 256]

/-- token.go `packBytesToBuf`: a uint16 length prefix (`uint16(len val)`,
hence the `% 2 ^ 16`) followed by the raw bytes. -/
def packBytes (val : List Nat) : List Nat :=
  packUint16 (val.length % 2 ^ 16) ++ val

/-- UTF-8 encoding of one Unicode scalar value (Go stores strings as
UTF-8 bytes; `[]byte(s)` yields exactly these bytes). -/
def charUtf8 (c : Char) : List Nat :=
  let n := c.toNat
  if n < 128 then [n]
  else if n < 2048 then [192 + n / 64, 128 + n % 64]
  else if n < 65536 then [224 + n / 4096, 128 + n / 64 % 64, 128 + n % 64]
  else [240 + n / 262144, 128 + n / 4096 % 64, 128 + n / 64 % 64, 128 + n % 64]

/-- The bytes of a Go string (`[]byte(s)`). -/
def strBytes (s : String) : List Nat := s.data.flatMap charUtf8

/-! ## CRC-32 (IEEE polynomial), `hash/crc32.ChecksumIEEE` -/

/-- One reflected CRC-32 bit step with the IEEE polynomial 0xEDB88320. -/
def crc32Bit (c : Nat) : Nat :=
  if c % 2 = 1 then (c / 2) ^^^ 0xEDB88320 else c / 2

/-- Eight CRC-32 bit steps. -/
def crc32Bits : Nat → Nat → Nat
  | c, 0 => c
  | c, n + 1 => crc32Bits (crc32Bit c) n

/-- `crc32.ChecksumIEEE` over a byte list (reflected algorithm, initial
and final value 0xFFFFFFFF). -/
def crc32IEEE (data : List Nat) : Nat :=
  0xFFFFFFFF ^^^ data.foldl (fun c b => crc32Bits (c ^^^ b % 256) 8) 0xFFFFFFFF

/-- `crc32.ChecksumIEEE([]byte(s))` as used in token.go. -/
def crc32String (s : String) : Nat := crc32IEEE (strBytes s)

/-! ## SHA-256 and HMAC-SHA256 (`crypto/sha256`, `crypto/hmac`) -/

/-- Right rotation of a 32-bit word. -/
def rotr32 (x n : Nat) : Nat := x / 2 ^ n + x % 2 ^ n * 2 ^ (32 - n)

/-- Logical right shift of a 32-bit word. -/
def shr32 (x n : Nat) : Nat := x / 2 ^ n

/-- 32-bit complement. -/
def not32 (x : Nat) : Nat := x ^^^ 0xFFFFFFFF

/-- The 64 SHA-256 round constants. -/
def shaK : List Nat :=
  [1116352408, 1899447441, 3049323471, 3921009573, 961987163,
   1508970993, 2453635748, 2870763221, 3624381080, 310598401,
   607225278, 1426881987, 1925078388, 2162078206, 2614888103,
   3248222580, 3835390401, 4022224774, 264347078, 604807628,
   770255983, 1249150122, 1555081692, 1996064986, 2554220882,
   2821834349, 2952996808, 3210313671, 3336571891, 3584528711,
   113926993, 338241895, 666307205, 773529912, 1294757372,
   1396182291, 1695183700, 1986661051, 2177026350, 2456956037,
   2730485921, 2820302411, 3259730800, 3345764771, 3516065817,
   3600352804, 4094571909, 275423344, 430227734, 506948616,
   659060556, 883997877, 958139571, 1322822218, 1537002063,
   1747873779, 1955562222, 2024104815, 2227730452, 2361852424,
   2428436474, 2756734187, 3204031479, 3329325298]

/-- The SHA-256 initial hash value. -/
def shaH0 : List Nat :=
  [1779033703, 3144134277, 1013904242, 2773480762,
   1359893119, 2600822924, 528734635, 1541459225]

/-- Big-endian encoding of a 32-bit word. -/
def be32 (v : Nat) : List Nat :=
  [v / 2 ^ 24 % 256, v / 2 ^ 16 % 256, v / 2 ^ 8 % 256, v % 256]

/-- Big-endian encoding of a 64-bit word. -/
def be64 (v : Nat) : List Nat :=
  [v / 2 ^ 56 % 256, v / 2 ^ 48 % 256, v / 2 ^ 40 % 256, v / 2 ^ 32 % 256,
   v / 2 ^ 24 % 256, v / 2 ^ 16 % 256, v / 2 ^ 8 % 256, v % 256]

/-- Group a byte list into big-endian 32-bit words. -/
def bytesToWordsBE : List Nat → List Nat
  | b0 :: b1 :: b2 :: b3 :: rest =>
      (((b0 * 256 + b1) * 256 + b2) * 256 + b3) :: bytesToWordsBE rest
  | _ => []

/-- SHA-256 message-schedule sigma functions. -/
def ssig0 (x : Nat) : Nat := rotr32 x 7 ^^^ rotr32 x 18 ^^^ shr32 x 3

/-- Second message-schedule sigma function. -/
def ssig1 (x : Nat) : Nat := rotr32 x 17 ^^^ rotr32 x 19 ^^^ shr32 x 10

/-- SHA-256 compression sigma functions. -/
def bsig0 (x : Nat) : Nat := rotr32 x 2 ^^^ rotr32 x 13 ^^^ rotr32 x 22

/-- Second compression sigma function. -/
def bsig1 (x : Nat) : Nat := rotr32 x 6 ^^^ rotr32 x 11 ^^^ rotr32 x 25

/-- SHA-256 choice function. -/
def shaCh (x y z : Nat) : Nat := x &&& y ^^^ not32 x &&& z

/-- SHA-256 majority function. -/
def shaMaj (x y z : Nat) : Nat := x &&& y ^^^ x &&& z ^^^ y &&& z

/-- Extend the 16 message words to 16 + n words. -/
def extendW (w : List Nat) : Nat → List Nat
  | 0 => w
  | k + 1 =>
    let w' := extendW w k
    let i := 16 + k
    w' ++ [(ssig1 (w'.getD (i - 2) 0) + w'.getD (i - 7) 0 +
            ssig0 (w'.getD (i - 15) 0) + w'.getD (i - 16) 0) % 2 ^ 32]

/-- One SHA-256 compression round; the state is the 8-word vector
[a, b, c, d, e, f, g, h]. -/
def compressStep (st : List Nat) (kw : Nat × Nat) : List Nat :=
  match st with
  | [a, b, c, d, e, f, g, h] =>
    let t1 := (h + bsig1 e + shaCh e f g + kw.1 + kw.2) % 2 ^ 32
    let t2 := (bsig0 a + shaMaj a b c) % 2 ^ 32
    [(t1 + t2) % 2 ^ 32, a, b, c, (d + t1) % 2 ^ 32, e, f, g]
  | _ => st

/-- Process one 64-byte block. -/
def processBlock (h : List Nat) (block : List Nat) : List Nat :=
  let w := extendW (bytesToWordsBE block) 48
  let st := (shaK.zip w).foldl compressStep h
  (h.zip st).map fun p => (p.1 + p.2) % 2 ^ 32

/-- Split a byte list into 64-byte chunks. -/
def chunks64 (l : List Nat) : List (List Nat) :=
  if l.isEmpty then [] else l.take 64 :: chunks64 (l.drop 64)
termination_by l.length
decreasing_by
  rename_i h
  have hl : l ≠ [] := by
    intro hnil
    simp [hnil] at h
  simp only [List.length_drop]
  exact Nat.sub_lt (List.length_pos.mpr hl) (by omega)

/-- SHA-256 of a byte list. -/
def sha256 (msg : List Nat) : List Nat :=
  let padded := msg ++ [128] ++ List.replicate ((119 - msg.length % 64) % 64) 0 ++
    be64 (8 * msg.length % 2 ^ 64)
  ((chunks64 padded).foldl processBlock shaH0).flatMap be32

/-- HMAC-SHA256 (`crypto/hmac` with `sha256.New`): block size 64. -/
def hmacSha256 (key msg : List Nat) : List Nat :=
  let k0 := if 64 < key.length then sha256 key else key
  let kp := k0 ++ List.replicate (64 - k0.length) 0
  sha256 ((kp.map fun b => b ^^^ 0x5c) ++
    sha256 ((kp.map fun b => b ^^^ 0x36) ++ msg))

/-- token.go `hmacSign(key, msg)`: HMAC-SHA256 keyed by the certificate's
bytes.  The message is carried as raw bytes because the Go code splices
the binary inner message into the string. -/
def hmacSign (key : String) (msg : List Nat) : List Nat :=
  hmacSha256 (strBytes key) msg

/-! ## Standard base64 (`encoding/base64.StdEncoding`) -/

/-- The standard base64 alphabet. -/
def b64Alphabet : List Char :=
  "ABCDEFGHIJKLMNOPQRSTUVWXYZabcdefghijklmnopqrstuvwxyz0123456789+/".data

/-- Character for a 6-bit group. -/
def b64Char (n : Nat) : Char := b64Alphabet.getD n 'A'

/-- Standard base64 encoding with `=` padding. -/
def base64Encode : List Nat → List Char
  | [] => []
  | [b0] => [b64Char (b0 / 4), b64Char (b0 % 4 * 16), '=', '=']
  | [b0, b1] => [b64Char (b0 / 4), b64Char (b0 % 4 * 16 + b1 / 16),
                 b64Char (b1 % 16 * 4), '=']
  | b0 :: b1 :: b2 :: rest =>
      b64Char (b0 / 4) :: b64Char (b0 % 4 * 16 + b1 / 16) ::
      b64Char (b1 % 16 * 4 + b2 / 64) :: b64Char (b2 % 64) :: base64Encode rest

/-- `base64.StdEncoding.EncodeToString`. -/
def base64Std (l : List Nat) : String := ⟨base64Encode l⟩

/-! ## Access token (token.go) -/

/-- Go `role` constant: publisher. -/
def RolePublisher : Int := 1

/-- Go `role` constant: subscriber. -/
def RoleSubscriber : Int := 2

/-- Privilege code: join channel. -/
def PrivilegeJoinChannel : Nat := 1

/-- Privilege code: publish audio. -/
def PrivilegePublishAudioStream : Nat := 2

/-- Privilege code: publish video. -/
def PrivilegePublishVideoStream : Nat := 3

/-- Privilege code: publish data. -/
def PrivilegePublishDataStream : Nat := 4

/-- Overwrite-or-append insertion into an association list; this is the
semantics of the Go map assignment `m[k] = v`. -/
def mapSet {α β : Type} [DecidableEq α] : List (α × β) → α → β → List (α × β)
  | [], k, v => [(k, v)]
  | (k', v') :: t, k, v =>
      if k' = k then (k, v) :: t else (k', v') :: mapSet t k v

/-- token.go `AccessToken`.  `Ts` and `Salt` are uint32 values; the Go
`Message` map (`map[uint16]uint32`) is embedded as an association list
with at most one entry per key (all writes go through `mapSet`).  The Go
struct's unused `Signature` field is omitted: `Build` never reads it. -/
structure AccessToken where
  AppID : String
  AppCertificate : String
  ChannelName : String
  UID : String
  Ts : Nat
  Salt : Nat
  Message : List (Nat × Nat)
  CrcChannelName : Nat
  CrcUID : Nat

/-- token.go `NewAccessToken`.  The Go code reads the clock
(`uint32(time.Now().Unix())`) and the PRNG (`rand.Uint32()`); here the
current Unix time `now` and the drawn salt are explicit parameters,
reduced `% 2 ^ 32` exactly where the Go conversions truncate. -/
def NewAccessToken (now salt : Nat) (appID appCertificate channelName uid : String) :
    AccessToken where
  AppID := appID
  AppCertificate := appCertificate
  ChannelName := channelName
  UID := uid
  Ts := (now + 24 * 3600) % 2 ^ 32
  Salt := salt % 2 ^ 32
  Message := []
  CrcChannelName := crc32String channelName
  CrcUID := crc32String uid

/-- token.go `AddPrivilege`: `token.Message[privilege] = expireTimestamp`. -/
def AddPrivilege (token : AccessToken) (privilege expireTimestamp : Nat) : AccessToken :=
  { token with Message := mapSet token.Message privilege expireTimestamp }

/-- token.go `packMapUint32ToBuf`: uint16 count of entries, then the
entries as (uint16 key, uint32 value) pairs with the keys sorted
ascending (`sort.Slice`). -/
def packMapUint32 (val : List (Nat × Nat)) : List Nat :=
  let keys := List.insertionSort (· ≤ ·) (val.map Prod.fst)
  packUint16 (val.length % 2 ^ 16) ++
    keys.flatMap fun k => packUint16 k ++ packUint32 ((val.lookup k).getD 0)

/-- token.go `packMessage`: salt, timestamp, then the privilege map. -/
def packMessage (token : AccessToken) : List Nat :=
  packUint32 token.Salt ++ packUint32 token.Ts ++ packMapUint32 token.Message

/-- token.go `packContent`: length-prefixed signature, the two CRCs,
then the length-prefixed message. -/
def packContent (sig : List Nat) (crcChannel crcUid : Nat) (msg : List Nat) : List Nat :=
  packBytes sig ++ packUint32 crcChannel ++ packUint32 crcUid ++ packBytes msg

/-- token.go `Build`: sign `AppID || ChannelName || UID || msg` with the
certificate, recompute both CRCs, pack, and emit
`"006" + AppID + base64(content)`.  The Go version also returns an
always-`nil` error, dropped here. -/
def AccessToken.Build (token : AccessToken) : String :=
  let msg := packMessage token
  let sig := hmacSign token.AppCertificate
    (strBytes token.AppID ++ strBytes token.ChannelName ++ strBytes token.UID ++ msg)
  let crcChannel := crc32String token.ChannelName
  let crcUid := crc32String token.UID
  let content := packContent sig crcChannel crcUid msg
  "006" ++ token.AppID ++ base64Std content

/-- The token constructed inside token.go `GenerateRTCToken` after the
configuration checks pass: join-channel always, the three publish
privileges only for the publisher role, all expiring at
`uint32(now) + expireSeconds`. -/
def rtcTokenOf (now salt : Nat) (appID appCertificate channelName uid : String)
    (role : Int) (expireSeconds : Nat) : AccessToken :=
  let token := NewAccessToken now salt appID appCertificate channelName uid
  let expireTimestamp := (now + expireSeconds) % 2 ^ 32
  let token := AddPrivilege token PrivilegeJoinChannel expireTimestamp
  if role = RolePublisher then
    AddPrivilege
      (AddPrivilege
        (AddPrivilege token PrivilegePublishAudioStream expireTimestamp)
        PrivilegePublishVideoStream expireTimestamp)
      PrivilegePublishDataStream expireTimestamp
  else token

/-- token.go `GenerateRTCToken`: reject an empty app ID or certificate,
otherwise build the token.  Clock and salt are explicit parameters as in
`NewAccessToken`. -/
def GenerateRTCToken (now salt : Nat) (appID appCertificate channelName uid : String)
    (role : Int) (expireSeconds : Nat) : Except String String :=
  if appID = "" then .error "appID is required"
  else if appCertificate = "" then .error "appCertificate is required"
  else .ok (rtcTokenOf now salt appID appCertificate channelName uid role expireSeconds).Build

/-! ## Recording client (client.go): result type, sanitisation, retry -/

/-- client.go `RecordingResult`. -/
structure RecordingResult where
  Success : Bool
  ResourceID : String
  SID : String
  FileName : String
  S3Key : String
  S3URL : String
  FileList : List String
  FileSize : Int
  Duration : Int
deriving DecidableEq

/-- client.go `cleanAlphanumeric`: keep exactly the runes `r` with
`'a' <= r <= 'z'`, `'A' <= r <= 'Z'` or `'0' <= r <= '9'`
(code points 97–122, 65–90, 48–57). -/
def cleanAlphanumeric (s : String) : String :=
  ⟨s.data.filter fun r =>
    (97 ≤ r.toNat && r.toNat ≤ 122) || (65 ≤ r.toNat && r.toNat ≤ 90) ||
    (48 ≤ r.toNat && r.toNat ≤ 57)⟩

/-- client.go `StartRecording`, lines 184–192: the `fileNamePrefix`
folder array sent to the remote start endpoint, derived from the load
number. -/
def fileNamePrefixFor (loadNumber : String) : List String :=
  if loadNumber ≠ "" then
    let cleanLoadNumber := cleanAlphanumeric loadNumber
    if cleanLoadNumber ≠ "" then ["recordings", cleanLoadNumber]
    else ["recordings"]
  else ["recordings"]

/-- Go `strings.Contains(hay, needle)` on rune lists: `needle` occurs as
a contiguous substring of `hay` (both strings in the source are ASCII,
so rune-level containment coincides with Go's byte-level containment). -/
def goContains (hay needle : List Char) : Bool :=
  if needle.isPrefixOf hay then true
  else
    match hay with
    | [] => false
    | _ :: t => goContains t needle

/-- client.go line 285: the transient-error test guarding the stop
retry — the error text contains `"65"` or `"request not completed"`. -/
def isTransientErr (e : String) : Bool :=
  goContains e.data "65".data || goContains e.data "request not completed".data

/-- client.go `stopRecordingWithRetry`.  The remote call
(`makeRequest` on the stop endpoint plus the file-list parsing of the
response, lines 282 and 295–348, which no claim concerns) is the oracle
`att`, indexed by the attempt number, which coincides with the Go
`retryCount` argument.  The second component accumulates the seconds
slept in `time.Sleep(delay)`; the delay before retry `retryCount + 1`
is `(retryCount+1)*3` seconds.  On a transient error with
`retryCount < 2` the call retries; otherwise the error is wrapped as
`"stop recording failed: ..."` and surfaced. -/
def stopRecordingWithRetry (att : Nat → Except String RecordingResult)
    (retryCount : Nat) : Except String RecordingResult × Nat :=
  match att retryCount with
  | .ok r => (.ok r, 0)
  | .error e =>
    if isTransientErr e ∧ retryCount < 2 then
      let delay := (retryCount + 1) * 3
      let rec' := stopRecordingWithRetry att (retryCount + 1)
      (rec'.1, delay + rec'.2)
    else
      (.error ("stop recording failed: " ++ e), 0)
termination_by 2 - retryCount
decreasing_by omega

/-- client.go `StopRecording`: entry point of the retry loop. -/
def StopRecordingClient (att : Nat → Except String RecordingResult) :
    Except String RecordingResult × Nat :=
  stopRecordingWithRetry att 0

/-! ## Recording service (`RecordingService`, service layer) -/

/-- The meeting-room fields the recording service reads
(`meetingRepo.GetByRoomID`): the load id and the `sql.NullString`
load number. -/
structure Meeting where
  LoadID : Nat
  LoadNumberValid : Bool
  LoadNumberString : String

/-- `ActiveRecording` from the recording service: info stored in memory
for each recording in flight, keyed by the server-issued SID. -/
structure ActiveRecording where
  ResourceID : String
  SID : String
  ChannelName : String
  UID : String
  LoadID : Nat
  LoadNumber : String
deriving DecidableEq

/-- `StartRecordingRequest`. -/
structure StartRecordingRequest where
  RoomID : String
  ChannelName : String
  UID : String
  Token : String

/-- `StartRecordingResponse`. -/
structure StartRecordingResponse where
  Success : Bool
  ResourceID : String
  SID : String
  RecordingID : String
  CName : String
  UID : String
deriving DecidableEq

/-- `StopRecordingRequest`. -/
structure StopRecordingRequest where
  ResourceID : String
  SID : String
  ChannelName : String
  UID : String

/-- `StopRecordingResponse` (the `Warning` field is never set on the
success path modelled here and defaults to `""`). -/
structure StopRecordingResponse where
  Success : Bool
  FileName : String
  S3Key : String
  S3URL : String
  FileList : List String
  FileSize : Int
  Duration : Int
  Status : String
  Warning : String
deriving DecidableEq

/-- Go `delete(m, k)` on the active-recordings map. -/
def eraseKey (m : List (String × ActiveRecording)) (k : String) :
    List (String × ActiveRecording) :=
  m.filter fun p => p.1 ≠ k

/-- Result of `RecordingService.StartRecording`: the returned value and
the updated active-recordings map. -/
structure StartEffects where
  result : Except String StartRecordingResponse
  recs : List (String × ActiveRecording)

/-- `RecordingService.StartRecording`.  The two collaborator calls —
`meetingRepo.GetByRoomID(req.RoomID)` and
`agoraClient.StartRecording(req.ChannelName, req.UID, req.Token,
loadNumber)` — are oracles.  On upstream success the service stores an
`ActiveRecording` under the server-issued SID. -/
def RecordingServiceStart (recs : List (String × ActiveRecording))
    (req : StartRecordingRequest)
    (meetingLookup : Except String Meeting)
    (agoraStart : Except String RecordingResult) : StartEffects :=
  match meetingLookup with
  | .error e => ⟨.error ("meeting room not found: " ++ e), recs⟩
  | .ok meeting =>
    let loadNumber := if meeting.LoadNumberValid then meeting.LoadNumberString else ""
    match agoraStart with
    | .error e => ⟨.error ("failed to start Agora recording: " ++ e), recs⟩
    | .ok result =>
      ⟨.ok { Success := true, ResourceID := result.ResourceID, SID := result.SID,
             RecordingID := result.SID, CName := req.ChannelName, UID := req.UID },
       mapSet recs result.SID
         { ResourceID := result.ResourceID, SID := result.SID,
           ChannelName := req.ChannelName, UID := req.UID,
           LoadID := meeting.LoadID, LoadNumber := loadNumber }⟩

/-- Result of `RecordingService.StopRecording`: the returned value, the
updated map, whether the remote stop endpoint was called, and whether a
gallery (media-catalog) write was attempted. -/
structure StopEffects where
  result : Except String StopRecordingResponse
  recs : List (String × ActiveRecording)
  remoteStopCalled : Bool
  galleryWriteAttempted : Bool

/-- `RecordingService.StopRecording`.  The remote stop call
(`agoraClient.StopRecording`) and the gallery write
(`galleryRepo.Create`) are oracles; a gallery failure is only logged
(`galleryCreate` does not influence anything else).  Validation runs in
source order: map lookup by SID, then ResourceID, ChannelName and UID
against the stored record, each failing before the remote endpoint is
contacted.  After a successful remote stop the gallery write is
attempted exactly when the returned S3 key is non-empty and the stored
LoadID is positive, the record is deleted, and a `Success`/`completed`
response is returned. -/
def RecordingServiceStop (recs : List (String × ActiveRecording))
    (req : StopRecordingRequest)
    (agoraStop : Except String RecordingResult)
    (galleryCreate : Except String Unit) : StopEffects :=
  match recs.lookup req.SID with
  | none =>
    ⟨.error ("recording not found for sid: " ++ req.SID ++
      ". Make sure the recording was started and the SID matches."),
     recs, false, false⟩
  | some recording =>
    if recording.ResourceID ≠ req.ResourceID then
      ⟨.error ("resourceId mismatch. Expected: " ++ recording.ResourceID ++
        ", Got: " ++ req.ResourceID), recs, false, false⟩
    else if recording.ChannelName ≠ req.ChannelName then
      ⟨.error ("channelName mismatch. Expected: " ++ recording.ChannelName ++
        ", Got: " ++ req.ChannelName), recs, false, false⟩
    else if recording.UID ≠ req.UID then
      ⟨.error ("UID mismatch. The UID used to stop recording (" ++ req.UID ++
        ") must match the UID used to start recording (" ++ recording.UID ++ ")"),
       recs, false, false⟩
    else
      match agoraStop with
      | .error e =>
        ⟨.error ("failed to stop Agora recording: " ++ e), recs, true, false⟩
      | .ok result =>
        let galleryAttempted := result.S3Key ≠ "" && 0 < recording.LoadID
        ⟨.ok { Success := true, FileName := result.FileName, S3Key := result.S3Key,
               S3URL := result.S3URL, FileList := result.FileList,
               FileSize := result.FileSize, Duration := result.Duration,
               Status := "completed", Warning := "" },
         eraseKey recs req.SID, true, galleryAttempted⟩

/-! ## Helper lemmas -/

/-- The raw rune test in `cleanAlphanumeric` coincides with the
library's ASCII-alphanumeric predicate. -/
theorem goAlnum_eq_isAlphanum (c : Char) :
    ((97 ≤ c.toNat && c.toNat ≤ 122) || (65 ≤ c.toNat && c.toNat ≤ 90) ||
      (48 ≤ c.toNat && c.toNat ≤ 57)) = c.isAlphanum := by
  have hle : ∀ a b : UInt32, (a ≤ b) = (a.toNat ≤ b.toNat) := fun a b => propext Iff.rfl
  have e65 : (65 : UInt32).toNat = 65 := rfl
  have e90 : (90 : UInt32).toNat = 90 := rfl
  have e97 : (97 : UInt32).toNat = 97 := rfl
  have e122 : (122 : UInt32).toNat = 122 := rfl
  have e48 : (48 : UInt32).toNat = 48 := rfl
  have e57 : (57 : UInt32).toNat = 57 := rfl
  simp only [Char.isAlphanum, Char.isAlpha, Char.isDigit, Char.isUpper, Char.isLower,
    Char.toNat, ge_iff_le, hle, e65, e90, e97, e122, e48, e57]
  generalize decide (97 ≤ c.val.toNat) = dL1
  generalize decide (c.val.toNat ≤ 122) = dL2
  generalize decide (65 ≤ c.val.toNat) = dU1
  generalize decide (c.val.toNat ≤ 90) = dU2
  generalize decide (48 ≤ c.val.toNat) = dD1
  generalize decide (c.val.toNat ≤ 57) = dD2
  cases dL1 <;> cases dL2 <;> cases dU1 <;> cases dU2 <;> cases dD1 <;> cases dD2 <;> rfl

/-! ## Claim theorems -/

/-- C6: `GenerateRTCToken` fails exactly when the app identity or the
app certificate is empty; for every other input — any channel name and
any user identity, empty ones included — it returns a token. -/
theorem generateRTCToken_error_iff (now salt : Nat)
    (appID cert ch uid : String) (role : Int) (expSec : Nat) :
    (∃ e, GenerateRTCToken now salt appID cert ch uid role expSec = .error e) ↔
      (appID = "" ∨ cert = "") := by
  unfold GenerateRTCToken
  by_cases h1 : appID = "" <;> by_cases h2 : cert = "" <;> simp [h1, h2]

/-- C7: the storage folder segment is the load number with every
character that is not an ASCII letter or digit removed; in particular
"LOAD-2024-01!" yields the segment "LOAD202401" and the file-name
prefix array ["recordings", "LOAD202401"]. -/
theorem startRecording_folder_sanitisation :
    (∀ s : String, cleanAlphanumeric s = ⟨s.data.filter Char.isAlphanum⟩) ∧
    cleanAlphanumeric "LOAD-2024-01!" = "LOAD202401" ∧
    fileNamePrefixFor "LOAD-2024-01!" = ["recordings", "LOAD202401"] := by
  refine ⟨fun s => ?_, by decide, by decide⟩
  unfold cleanAlphanumeric
  congr 1
  exact List.filter_congr fun c _ => goAlnum_eq_isAlphanum c

/-- C8: the generated token always carries the join-channel privilege
expiring at `uint32(now) + expireSeconds`; a publisher additionally
gets publish-audio, publish-video and publish-data with the same
expiry, and any other role gets exactly the join privilege. -/
theorem generateRTCToken_privileges (now salt : Nat) (appID cert ch uid : String)
    (role : Int) (expSec : Nat) :
    ((rtcTokenOf now salt appID cert ch uid role expSec).Message.lookup
        PrivilegeJoinChannel = some ((now + expSec) % 2 ^ 32)) ∧
    (role = RolePublisher →
      (rtcTokenOf now salt appID cert ch uid role expSec).Message =
        [(PrivilegeJoinChannel, (now + expSec) % 2 ^ 32),
         (PrivilegePublishAudioStream, (now + expSec) % 2 ^ 32),
         (PrivilegePublishVideoStream, (now + expSec) % 2 ^ 32),
         (PrivilegePublishDataStream, (now + expSec) % 2 ^ 32)]) ∧
    (role ≠ RolePublisher →
      (rtcTokenOf now salt appID cert ch uid role expSec).Message =
        [(PrivilegeJoinChannel, (now + expSec) % 2 ^ 32)]) := by
  by_cases h : role = (1 : Int) <;>
    simp [rtcTokenOf, NewAccessToken, AddPrivilege, mapSet, h, PrivilegeJoinChannel,
      PrivilegePublishAudioStream, PrivilegePublishVideoStream,
      PrivilegePublishDataStream, RolePublisher, List.lookup]

/-- Witness for C8 at concrete publisher and subscriber inputs. -/
theorem generateRTCToken_privileges_witness :
    (rtcTokenOf 1000 5 "a" "c" "ch" "u" 1 60).Message =
      [(1, 1060), (2, 1060), (3, 1060), (4, 1060)] ∧
    (rtcTokenOf 1000 5 "a" "c" "ch" "u" 2 60).Message = [(1, 1060)] :=
  ⟨(generateRTCToken_privileges 1000 5 "a" "c" "ch" "u" 1 60).2.1 rfl,
   (generateRTCToken_privileges 1000 5 "a" "c" "ch" "u" 2 60).2.2 (by decide)⟩

/-- `goContains` decides substring containment (Go `strings.Contains`). -/
theorem goContains_iff (hay needle : List Char) :
    goContains hay needle = true ↔ needle <:+: hay := by
  induction hay with
  | nil =>
    rw [goContains]
    by_cases hp : needle.isPrefixOf ([] : List Char) = true
    · rw [List.isPrefixOf_iff_prefix] at hp
      simp_all
    · simp only [List.isPrefixOf_iff_prefix] at hp
      simp_all
  | cons a t ih =>
    rw [goContains]
    by_cases hp : needle.isPrefixOf (a :: t) = true
    · rw [List.isPrefixOf_iff_prefix] at hp
      simp [hp, List.infix_cons_iff]
    · simp only [List.isPrefixOf_iff_prefix] at hp
      simp [hp, ih, List.infix_cons_iff]

/-- C2: when the remote stop fails with the transient error class on
the first two attempts, the client sleeps 3 s then 6 s and issues a
third attempt; a success there is returned as-is after 9 s of total
backoff, and a third failure surfaces the upstream error. -/
theorem stopRecording_retry_backoff (att : Nat → Except String RecordingResult)
    (e1 e2 : String)
    (h1 : att 0 = .error e1) (ht1 : isTransientErr e1 = true)
    (h2 : att 1 = .error e2) (ht2 : isTransientErr e2 = true) :
    (∀ r, att 2 = .ok r → StopRecordingClient att = (.ok r, 9)) ∧
    (∀ e3, att 2 = .error e3 →
      StopRecordingClient att = (.error ("stop recording failed: " ++ e3), 9)) ∧
    (∀ att' : Nat → Except String RecordingResult, ∀ e : String,
      att' 0 = .error e → isTransientErr e = false →
      StopRecordingClient att' = (.error ("stop recording failed: " ++ e), 0)) := by
  refine ⟨?_, ?_, ?_⟩
  · intro r h3
    unfold StopRecordingClient
    rw [stopRecordingWithRetry, h1]
    simp only [ht1, true_and]
    rw [if_pos (by omega)]
    rw [stopRecordingWithRetry, h2]
    simp only [ht2, true_and]
    rw [if_pos (by omega)]
    rw [stopRecordingWithRetry, h3]
    norm_num
  · intro e3 h3
    unfold StopRecordingClient
    rw [stopRecordingWithRetry, h1]
    simp only [ht1, true_and]
    rw [if_pos (by omega)]
    rw [stopRecordingWithRetry, h2]
    simp only [ht2, true_and]
    rw [if_pos (by omega)]
    rw [stopRecordingWithRetry, h3]
    norm_num
  · intro att' e h he
    unfold StopRecordingClient
    rw [stopRecordingWithRetry, h]
    simp [he]

/-- Witness for C2: two transient failures, then success, gives the
result back with 9 seconds of accumulated backoff. -/
theorem stopRecording_retry_backoff_witness :
    StopRecordingClient (fun n => if n < 2 then .error "request not completed"
      else .ok ⟨true, "r", "s", "f.mp4", "f.mp4", "u", ["f.mp4"], 0, 0⟩) =
      (.ok ⟨true, "r", "s", "f.mp4", "f.mp4", "u", ["f.mp4"], 0, 0⟩, 9) :=
  (stopRecording_retry_backoff _ "request not completed" "request not completed"
    rfl (by decide) rfl (by decide)).1 _ rfl

/-- C9: the stop-retry trigger is a pure substring test on the error
text — it fires exactly when the message contains "65" or
"request not completed" — so a permanent error such as
"API error (status 650): Forbidden" is also retried, while an error
matching neither substring is surfaced immediately with no backoff. -/
theorem stopRetry_trigger_is_substring_test (att : Nat → Except String RecordingResult)
    (e : String) (h : att 0 = .error e) :
    (isTransientErr e = true ↔
      ("65".data <:+: e.data ∨ "request not completed".data <:+: e.data)) ∧
    (isTransientErr e = true →
      StopRecordingClient att =
        ((stopRecordingWithRetry att 1).1, 3 + (stopRecordingWithRetry att 1).2)) ∧
    (isTransientErr e = false →
      StopRecordingClient att = (.error ("stop recording failed: " ++ e), 0)) ∧
    isTransientErr "API error (status 650): Forbidden" = true := by
  refine ⟨?_, ?_, ?_, by decide⟩
  · unfold isTransientErr
    rw [Bool.or_eq_true, goContains_iff, goContains_iff]
  · intro ht
    unfold StopRecordingClient
    rw [stopRecordingWithRetry, h]
    simp only [ht, true_and]
    rw [if_pos (by omega)]
  · intro ht
    unfold StopRecordingClient
    rw [stopRecordingWithRetry, h]
    simp [ht]

/-- Witness for C9: an error matching neither substring is surfaced
immediately with zero backoff. -/
theorem stopRetry_trigger_is_substring_test_witness :
    StopRecordingClient (fun _ => .error "API error (status 400): bad request") =
      (.error "stop recording failed: API error (status 400): bad request", 0) :=
  (stopRetry_trigger_is_substring_test _ "API error (status 400): bad request"
    rfl).2.2.1 (by decide)

/-- C3: a Stop whose SID is unknown fails with the not-found error and
never reaches the remote endpoint; with a known SID the stored record
is validated in order — resourceId, then channelName, then userIdentity
— and the first differing field is named in the error, again without
calling the remote stop endpoint. -/
theorem stopRecording_validation_order (recs : List (String × ActiveRecording))
    (req : StopRecordingRequest) (agoraStop : Except String RecordingResult)
    (galleryCreate : Except String Unit) :
    (recs.lookup req.SID = none →
      RecordingServiceStop recs req agoraStop galleryCreate =
        ⟨.error ("recording not found for sid: " ++ req.SID ++
          ". Make sure the recording was started and the SID matches."),
         recs, false, false⟩) ∧
    (∀ rec, recs.lookup req.SID = some rec →
      (rec.ResourceID ≠ req.ResourceID →
        RecordingServiceStop recs req agoraStop galleryCreate =
          ⟨.error ("resourceId mismatch. Expected: " ++ rec.ResourceID ++
            ", Got: " ++ req.ResourceID), recs, false, false⟩) ∧
      (rec.ResourceID = req.ResourceID → rec.ChannelName ≠ req.ChannelName →
        RecordingServiceStop recs req agoraStop galleryCreate =
          ⟨.error ("channelName mismatch. Expected: " ++ rec.ChannelName ++
            ", Got: " ++ req.ChannelName), recs, false, false⟩) ∧
      (rec.ResourceID = req.ResourceID → rec.ChannelName = req.ChannelName →
        rec.UID ≠ req.UID →
        RecordingServiceStop recs req agoraStop galleryCreate =
          ⟨.error ("UID mismatch. The UID used to stop recording (" ++ req.UID ++
            ") must match the UID used to start recording (" ++ rec.UID ++ ")"),
           recs, false, false⟩)) := by
  constructor
  · intro h
    simp [RecordingServiceStop, h]
  · intro rec h
    refine ⟨fun hr => ?_, fun hr hc => ?_, fun hr hc hu => ?_⟩
    · simp [RecordingServiceStop, h, hr]
    · simp [RecordingServiceStop, h, hr, hc]
    · simp [RecordingServiceStop, h, hr, hc, hu]

/-- Witness for C3: a Stop with matching sessionId, resourceId and
channel but a different UID fails with the UID-mismatch error, leaves
the map unchanged and does not call the remote endpoint. -/
theorem stopRecording_validation_order_witness :
    RecordingServiceStop [("sid1", ⟨"res1", "sid1", "ch1", "u1", 5, "L1"⟩)]
      ⟨"res1", "sid1", "ch1", "u2"⟩
      (.ok ⟨true, "res1", "sid1", "f", "k", "u", [], 0, 0⟩) (.ok ()) =
      ⟨.error ("UID mismatch. The UID used to stop recording (u2) must match " ++
        "the UID used to start recording (u1)"),
       [("sid1", ⟨"res1", "sid1", "ch1", "u1", 5, "L1"⟩)], false, false⟩ :=
  ((stopRecording_validation_order [("sid1", ⟨"res1", "sid1", "ch1", "u1", 5, "L1"⟩)]
      ⟨"res1", "sid1", "ch1", "u2"⟩
      (.ok ⟨true, "res1", "sid1", "f", "k", "u", [], 0, 0⟩) (.ok ())).2
    ⟨"res1", "sid1", "ch1", "u1", 5, "L1"⟩ rfl).2.2 rfl rfl (by decide)

/-- C4: an `ActiveRecording` keyed by the server-issued SID is inserted
into the map exactly when the upstream start succeeds and removed
exactly when the upstream stop succeeds; the removal does not depend on
the media-catalog write outcome, and a Stop failing lookup, validation
or the upstream call leaves the map unchanged. -/
theorem activeRecording_lifecycle (recs : List (String × ActiveRecording))
    (startReq : StartRecordingRequest) (meeting : Except String Meeting)
    (agoraStart : Except String RecordingResult)
    (stopReq : StopRecordingRequest) (agoraStop : Except String RecordingResult)
    (g1 g2 : Except String Unit) :
    (∀ m r, meeting = .ok m → agoraStart = .ok r →
      (RecordingServiceStart recs startReq meeting agoraStart).recs =
        mapSet recs r.SID
          ⟨r.ResourceID, r.SID, startReq.ChannelName, startReq.UID, m.LoadID,
           if m.LoadNumberValid then m.LoadNumberString else ""⟩) ∧
    (∀ e, (RecordingServiceStart recs startReq meeting agoraStart).result = .error e →
      (RecordingServiceStart recs startReq meeting agoraStart).recs = recs) ∧
    (∀ resp, (RecordingServiceStop recs stopReq agoraStop g1).result = .ok resp →
      (RecordingServiceStop recs stopReq agoraStop g1).recs =
        eraseKey recs stopReq.SID) ∧
    (∀ e, (RecordingServiceStop recs stopReq agoraStop g1).result = .error e →
      (RecordingServiceStop recs stopReq agoraStop g1).recs = recs) ∧
    RecordingServiceStop recs stopReq agoraStop g1 =
      RecordingServiceStop recs stopReq agoraStop g2 := by
  refine ⟨?_, ?_, ?_, ?_, ?_⟩
  · intro m r hm hr
    simp [RecordingServiceStart, hm, hr]
  · intro e
    unfold RecordingServiceStart
    cases meeting with
    | error e' => intro _; rfl
    | ok m =>
      cases agoraStart with
      | error e' => intro _; rfl
      | ok r => intro h; simp at h
  · intro resp
    unfold RecordingServiceStop
    split
    · intro h; simp at h
    · split
      · intro h; simp at h
      · split
        · intro h; simp at h
        · split
          · intro h; simp at h
          · cases agoraStop with
            | error e' => intro h; simp at h
            | ok r => intro _; rfl
  · intro e
    unfold RecordingServiceStop
    split
    · intro _; rfl
    · split
      · intro _; rfl
      · split
        · intro _; rfl
        · split
          · intro _; rfl
          · cases agoraStop with
            | error e' => intro _; rfl
            | ok r => intro h; simp at h
  · rfl

/-- Witness for C4: a successful start on an empty map inserts exactly
the record keyed by the returned SID. -/
theorem activeRecording_lifecycle_witness :
    (RecordingServiceStart [] ⟨"room", "ch", "u", "tok"⟩ (.ok ⟨7, true, "L-1"⟩)
        (.ok ⟨true, "res", "sid", "", "", "", [], 0, 0⟩)).recs =
      [("sid", ⟨"res", "sid", "ch", "u", 7, "L-1"⟩)] :=
  (activeRecording_lifecycle [] ⟨"room", "ch", "u", "tok"⟩ (.ok ⟨7, true, "L-1"⟩)
      (.ok ⟨true, "res", "sid", "", "", "", [], 0, 0⟩) ⟨"r", "s", "c", "u"⟩
      (.error "x") (.ok ()) (.ok ())).1
    ⟨7, true, "L-1"⟩ ⟨true, "res", "sid", "", "", "", [], 0, 0⟩ rfl rfl

/-- C10: after a successful upstream stop, the gallery write is
attempted exactly when the returned S3 key is non-empty and the stored
LoadID is positive; in every success case the response has `Success`
true and status "completed" and the record is removed, whatever the
gallery oracle returns. -/
theorem stopRecording_gallery_policy (recs : List (String × ActiveRecording))
    (req : StopRecordingRequest) (rec : ActiveRecording)
    (result : RecordingResult) (g : Except String Unit)
    (hl : recs.lookup req.SID = some rec)
    (hr : rec.ResourceID = req.ResourceID) (hc : rec.ChannelName = req.ChannelName)
    (hu : rec.UID = req.UID) :
    RecordingServiceStop recs req (.ok result) g =
      ⟨.ok ⟨true, result.FileName, result.S3Key, result.S3URL, result.FileList,
            result.FileSize, result.Duration, "completed", ""⟩,
       eraseKey recs req.SID, true, result.S3Key ≠ "" && 0 < rec.LoadID⟩ := by
  simp [RecordingServiceStop, hl, hr, hc, hu]

/-- Witness for C10: a stop returning an empty S3 key skips the
gallery write but still succeeds with status "completed" and removes
the record. -/
theorem stopRecording_gallery_policy_witness :
    RecordingServiceStop [("sid1", ⟨"res1", "sid1", "ch1", "u1", 0, ""⟩)]
      ⟨"res1", "sid1", "ch1", "u1"⟩
      (.ok ⟨true, "res1", "sid1", "", "", "", [], 0, 0⟩) (.error "db down") =
      ⟨.ok ⟨true, "", "", "", [], 0, 0, "completed", ""⟩, [], true, false⟩ :=
  stopRecording_gallery_policy [("sid1", ⟨"res1", "sid1", "ch1", "u1", 0, ""⟩)]
    ⟨"res1", "sid1", "ch1", "u1"⟩ ⟨"res1", "sid1", "ch1", "u1", 0, ""⟩
    ⟨true, "res1", "sid1", "", "", "", [], 0, 0⟩ (.error "db down")
    rfl rfl rfl rfl

/-- Inserting a fresh key into an association list appends it. -/
theorem mapSet_append_of_not_mem {m : List (Nat × Nat)} {k : Nat} (v : Nat)
    (h : k ∉ m.map Prod.fst) : mapSet m k v = m ++ [(k, v)] := by
  induction m with
  | nil => rfl
  | cons p t ih =>
    simp only [List.map_cons, List.mem_cons] at h
    push_neg at h
    rw [mapSet, if_neg (by exact fun he => h.1 he.symm), ih h.2]
    rfl

/-- Folding fresh-key insertions over an association list appends the
inserted pairs in order. -/
theorem foldl_mapSet_eq_append (ps : List (Nat × Nat)) :
    ∀ acc : List (Nat × Nat), (ps.map Prod.fst).Nodup →
    (∀ k, k ∈ acc.map Prod.fst → k ∉ ps.map Prod.fst) →
    ps.foldl (fun m p => mapSet m p.1 p.2) acc = acc ++ ps := by
  induction ps with
  | nil => intro acc _ _; simp
  | cons p t ih =>
    intro acc hnd hdis
    simp only [List.foldl_cons]
    have hp : p.1 ∉ acc.map Prod.fst := fun hmem => hdis p.1 hmem (by simp)
    rw [mapSet_append_of_not_mem p.2 hp]
    simp only [List.map_cons, List.nodup_cons] at hnd
    rw [ih (acc ++ [p]) hnd.2 ?_]
    · simp
    · intro k hk
      simp only [List.map_append, List.mem_append, List.map_cons, List.map_nil,
        List.mem_singleton] at hk
      rcases hk with hk | hk
      · exact fun hmem => hdis k hk (by simp [hmem])
      · rw [hk]
        exact hnd.1

/-- Lookup in an association list with distinct keys is invariant under
permutation. -/
theorem lookup_eq_of_perm {l₁ l₂ : List (Nat × Nat)} (hp : l₁.Perm l₂)
    (hnd : (l₁.map Prod.fst).Nodup) : ∀ k, l₁.lookup k = l₂.lookup k := by
  induction hp with
  | nil => intro k; rfl
  | cons x h ih =>
    intro k
    simp only [List.map_cons, List.nodup_cons] at hnd
    obtain ⟨a, b⟩ := x
    cases hka : k == a with
    | true => simp [List.lookup, hka]
    | false => simp [List.lookup, hka, ih hnd.2 k]
  | swap x y l =>
    intro k
    obtain ⟨a, b⟩ := x
    obtain ⟨c, d⟩ := y
    have hca : c ≠ a := by
      simp only [List.map_cons, List.nodup_cons, List.mem_cons] at hnd
      exact fun he => hnd.1 (Or.inl he)
    cases hkc : k == c <;> cases hka : k == a
    · simp [List.lookup, hkc, hka]
    · simp [List.lookup, hkc, hka]
    · simp [List.lookup, hkc, hka]
    · exact absurd ((beq_iff_eq.mp hkc).symm.trans (beq_iff_eq.mp hka)) hca
  | trans h₁ h₂ ih₁ ih₂ =>
    intro k
    rw [ih₁ hnd k, ih₂ ((h₁.map Prod.fst).nodup hnd) k]

/-- The packed privilege map depends only on the key-value set: two
permuted association lists with distinct keys serialize identically. -/
theorem packMapUint32_perm {l₁ l₂ : List (Nat × Nat)} (hp : l₁.Perm l₂)
    (hnd : (l₁.map Prod.fst).Nodup) : packMapUint32 l₁ = packMapUint32 l₂ := by
  have hkeys : List.insertionSort (· ≤ ·) (l₁.map Prod.fst) =
      List.insertionSort (· ≤ ·) (l₂.map Prod.fst) := by
    refine List.eq_of_perm_of_sorted ?_ (List.sorted_insertionSort _ _)
      (List.sorted_insertionSort _ _)
    exact (List.perm_insertionSort _ _).trans
      ((hp.map Prod.fst).trans (List.perm_insertionSort _ _).symm)
  have hfun : (fun k => packUint16 k ++ packUint32 ((l₁.lookup k).getD 0)) =
      (fun k => packUint16 k ++ packUint32 ((l₂.lookup k).getD 0)) :=
    funext fun k => by rw [lookup_eq_of_perm hp hnd k]
  unfold packMapUint32
  dsimp only
  rw [hp.length_eq, hkeys, hfun]

/-- Folding `AddPrivilege` only rewrites the `Message` field. -/
theorem foldl_addPrivilege (t : AccessToken) (ps : List (Nat × Nat)) :
    ps.foldl (fun t p => AddPrivilege t p.1 p.2) t =
      { t with Message := ps.foldl (fun m p => mapSet m p.1 p.2) t.Message } := by
  induction ps generalizing t with
  | nil => rfl
  | cons p tl ih =>
    rw [List.foldl_cons, List.foldl_cons, ih (AddPrivilege t p.1 p.2)]
    rfl

/-- C5: with the salt and timestamp fixed by construction, adding the
same privileges in any insertion order yields a byte-identical packed
message, and hence a byte-identical signature and token string: the
privilege map always serializes as a count prefix plus entries sorted
ascending by privilege code. -/
theorem tokenBuild_insertion_order_independent (now salt : Nat)
    (appID cert ch uid : String) (ps qs : List (Nat × Nat))
    (hperm : ps.Perm qs) (hnd : (ps.map Prod.fst).Nodup) :
    packMessage (ps.foldl (fun t p => AddPrivilege t p.1 p.2)
        (NewAccessToken now salt appID cert ch uid)) =
      packMessage (qs.foldl (fun t p => AddPrivilege t p.1 p.2)
        (NewAccessToken now salt appID cert ch uid)) ∧
    (ps.foldl (fun t p => AddPrivilege t p.1 p.2)
        (NewAccessToken now salt appID cert ch uid)).Build =
      (qs.foldl (fun t p => AddPrivilege t p.1 p.2)
        (NewAccessToken now salt appID cert ch uid)).Build := by
  have hndq : (qs.map Prod.fst).Nodup := (hperm.map Prod.fst).nodup hnd
  have hmp : ps.foldl (fun m p => mapSet m p.1 p.2)
      (NewAccessToken now salt appID cert ch uid).Message = ps := by
    rw [show (NewAccessToken now salt appID cert ch uid).Message = [] from rfl]
    rw [foldl_mapSet_eq_append ps [] hnd (by simp)]
    rfl
  have hmq : qs.foldl (fun m p => mapSet m p.1 p.2)
      (NewAccessToken now salt appID cert ch uid).Message = qs := by
    rw [show (NewAccessToken now salt appID cert ch uid).Message = [] from rfl]
    rw [foldl_mapSet_eq_append qs [] hndq (by simp)]
    rfl
  have hpack : packMapUint32 ps = packMapUint32 qs := packMapUint32_perm hperm hnd
  constructor
  · rw [foldl_addPrivilege, foldl_addPrivilege, hmp, hmq]
    unfold packMessage
    dsimp only
    rw [hpack]
  · rw [foldl_addPrivilege, foldl_addPrivilege, hmp, hmq]
    unfold AccessToken.Build packMessage
    dsimp only
    rw [hpack]

/-- Witness for C5: the four publisher privileges inserted in reverse
order serialize and sign identically to ascending insertion. -/
theorem tokenBuild_insertion_order_independent_witness :
    (([(4, 99), (3, 99), (2, 99), (1, 99)] : List (Nat × Nat)).foldl
        (fun t p => AddPrivilege t p.1 p.2)
        (NewAccessToken 1000 5 "app" "cert" "ch" "u")).Build =
      (([(1, 99), (2, 99), (3, 99), (4, 99)] : List (Nat × Nat)).foldl
        (fun t p => AddPrivilege t p.1 p.2)
        (NewAccessToken 1000 5 "app" "cert" "ch" "u")).Build :=
  (tokenBuild_insertion_order_independent 1000 5 "app" "cert" "ch" "u"
    [(4, 99), (3, 99), (2, 99), (1, 99)] [(1, 99), (2, 99), (3, 99), (4, 99)]
    (by decide) (by decide)).2

/-! ## Spec-side wire format for the token (refinement target for C1) -/

/-- The privilege set the spec prescribes for each role, already listed
in ascending privilege-code order. -/
def privilegesSpec (role : Int) (expiry : Nat) : List (Nat × Nat) :=
  if role = RolePublisher then
    [(PrivilegeJoinChannel, expiry), (PrivilegePublishAudioStream, expiry),
     (PrivilegePublishVideoStream, expiry), (PrivilegePublishDataStream, expiry)]
  else [(PrivilegeJoinChannel, expiry)]

/-- The token string exactly as the spec words it: `"006"` + the app
identity + standard base64 of the outer content, where the outer
content is the uint16-length-prefixed HMAC-SHA256 signature (keyed by
the certificate, over the raw concatenation appIdentity || channelName
|| userIdentity || innerMessage), the two little-endian uint32
CRC32-IEEE codes of channel and user, and the uint16-length-prefixed
inner message; the inner message is the little-endian uint32 salt, the
little-endian uint32 message expiry `now + 24h`, a uint16 entry count
and the (uint16 code, uint32 expiry) pairs sorted ascending by code. -/
def tokenWireFormatSpec (now salt : Nat) (appID cert ch uid : String)
    (role : Int) (expSec : Nat) : String :=
  let privs := privilegesSpec role ((now + expSec) % 2 ^ 32)
  let innerMessage :=
    packUint32 (salt % 2 ^ 32) ++ packUint32 ((now + 86400) % 2 ^ 32) ++
    packUint16 privs.length ++ privs.flatMap fun p => packUint16 p.1 ++ packUint32 p.2
  let sig := hmacSha256 (strBytes cert)
    (strBytes appID ++ strBytes ch ++ strBytes uid ++ innerMessage)
  let outerContent :=
    packUint16 (sig.length % 2 ^ 16) ++ sig ++
    packUint32 (crc32IEEE (strBytes ch)) ++ packUint32 (crc32IEEE (strBytes uid)) ++
    packUint16 (innerMessage.length % 2 ^ 16) ++ innerMessage
  "006" ++ appID ++ base64Std outerContent

/-- C1: for non-empty app identity and certificate, `GenerateRTCToken`
produces exactly the token string prescribed by the spec's wire
format. -/
theorem generateRTCToken_wire_format (now salt : Nat) (appID cert ch uid : String)
    (role : Int) (expSec : Nat) (h1 : appID ≠ "") (h2 : cert ≠ "") :
    GenerateRTCToken now salt appID cert ch uid role expSec =
      .ok (tokenWireFormatSpec now salt appID cert ch uid role expSec) := by
  unfold GenerateRTCToken
  rw [if_neg h1, if_neg h2]
  refine congrArg Except.ok ?_
  by_cases hrole : role = RolePublisher
  · simp only [rtcTokenOf, if_pos hrole]
    unfold AccessToken.Build tokenWireFormatSpec packContent packBytes privilegesSpec
    dsimp only
    simp only [if_pos hrole, List.append_assoc]
    rfl
  · simp only [rtcTokenOf, if_neg hrole]
    unfold AccessToken.Build tokenWireFormatSpec packContent packBytes privilegesSpec
    dsimp only
    simp only [if_neg hrole, List.append_assoc]
    rfl

/-- Witness for C1 at a concrete publisher input. -/
theorem generateRTCToken_wire_format_witness :
    GenerateRTCToken 1700000000 123456789 "app" "cert" "room-42" "7" 1 3600 =
      .ok (tokenWireFormatSpec 1700000000 123456789 "app" "cert" "room-42" "7" 1 3600) :=
  generateRTCToken_wire_format 1700000000 123456789 "app" "cert" "room-42" "7" 1 3600
    (by decide) (by decide)
